import Mathlib

/-!
Verification development for the MarginFi lending client
(marginfi_lending.py).  The Python source is shallowly embedded: pure
computations become Lean functions over Nat / Int / Rat and byte lists,
the RPC backend and the price oracle become records of abstract
functions, and the mutable session fields of the client object become an
explicit state record threaded through each operation.
-/

/-! ## SHA-256 (embedding of hashlib.sha256 on byte lists) -/

/-- Modulus of 32-bit words in the SHA-256 compression function. -/
def word32Mod : Nat := 4294967296

/-- Addition modulo 2 to the 32. -/
def add32 (a b : Nat) : Nat := (a + b) % word32Mod

/-- Right rotation of a 32-bit word. -/
def rotr32 (x n : Nat) : Nat := ((x >>> n) ||| (x <<< (32 - n))) % word32Mod

/-- SHA-256 choice function. -/
def chW (x y z : Nat) : Nat := (x &&& y) ^^^ ((x ^^^ 4294967295) &&& z)

/-- SHA-256 majority function. -/
def majW (x y z : Nat) : Nat := (x &&& y) ^^^ (x &&& z) ^^^ (y &&& z)

/-- SHA-256 big sigma 0. -/
def sigmaBig0 (x : Nat) : Nat := rotr32 x 2 ^^^ rotr32 x 13 ^^^ rotr32 x 22

/-- SHA-256 big sigma 1. -/
def sigmaBig1 (x : Nat) : Nat := rotr32 x 6 ^^^ rotr32 x 11 ^^^ rotr32 x 25

/-- SHA-256 small sigma 0. -/
def sigmaSmall0 (x : Nat) : Nat := rotr32 x 7 ^^^ rotr32 x 18 ^^^ (x >>> 3)

/-- SHA-256 small sigma 1. -/
def sigmaSmall1 (x : Nat) : Nat := rotr32 x 17 ^^^ rotr32 x 19 ^^^ (x >>> 10)

/-- The 64 SHA-256 round constants, in decimal. -/
def K256 : List Nat :=
  [1116352408, 1899447441, 3049323471, 3921009573,
   961987163, 1508970993, 2453635748, 2870763221,
   3624381080, 310598401, 607225278, 1426881987,
   1925078388, 2162078206, 2614888103, 3248222580,
   3835390401, 4022224774, 264347078, 604807628,
   770255983, 1249150122, 1555081692, 1996064986,
   2554220882, 2821834349, 2952996808, 3210313671,
   3336571891, 3584528711, 113926993, 338241895,
   666307205, 773529912, 1294757372, 1396182291,
   1695183700, 1986661051, 2177026350, 2456956037,
   2730485921, 2820302411, 3259730800, 3345764771,
   3516065817, 3600352804, 4094571909, 275423344,
   430227734, 506948616, 659060556, 883997877,
   958139571, 1322822218, 1537002063, 1747873779,
   1955562222, 2024104815, 2227730452, 2361852424,
   2428436474, 2756734187, 3204031479, 3329325298]

/-- The eight working words of the SHA-256 state. -/
structure Hash8 where
  a : Nat
  b : Nat
  c : Nat
  d : Nat
  e : Nat
  f : Nat
  g : Nat
  h : Nat
deriving DecidableEq

/-- SHA-256 initial hash value, in decimal. -/
def initH : Hash8 :=
  ⟨1779033703, 3144134277, 1013904242, 2773480762,
   1359893119, 2600822924, 528734635, 1541459225⟩

/-- Group a list of bytes into big-endian 32-bit words. -/
def bytesToWords : List Nat → List Nat
  | b0 :: b1 :: b2 :: b3 :: rest =>
      (b0 * 16777216 + b1 * 65536 + b2 * 256 + b3) :: bytesToWords rest
  | _ => []

/-- One extension step of the SHA-256 message schedule. -/
def scheduleStep (ws : List Nat) : List Nat :=
  let i := ws.length
  ws ++ [add32 (add32 (sigmaSmall1 (ws.getD (i - 2) 0)) (ws.getD (i - 7) 0))
               (add32 (sigmaSmall0 (ws.getD (i - 15) 0)) (ws.getD (i - 16) 0))]

/-- Iterate the schedule extension a given number of times. -/
def extendSchedule : Nat → List Nat → List Nat
  | 0, ws => ws
  | n + 1, ws => extendSchedule n (scheduleStep ws)

/-- Full 64-word message schedule of one 16-word block. -/
def schedule (block : List Nat) : List Nat :=
  extendSchedule 48 (bytesToWords block)

/-- One round of the SHA-256 compression function. -/
def sha256Round (st : Hash8) (kw : Nat × Nat) : Hash8 :=
  let t1 := add32 st.h (add32 (sigmaBig1 st.e)
    (add32 (chW st.e st.f st.g) (add32 kw.1 kw.2)))
  let t2 := add32 (sigmaBig0 st.a) (majW st.a st.b st.c)
  ⟨add32 t1 t2, st.a, st.b, st.c, add32 st.d t1, st.e, st.f, st.g⟩

/-- Process one 64-byte block. -/
def processBlock (st : Hash8) (block : List Nat) : Hash8 :=
  let fin := (K256.zip (schedule block)).foldl sha256Round st
  ⟨add32 st.a fin.a, add32 st.b fin.b, add32 st.c fin.c, add32 st.d fin.d,
   add32 st.e fin.e, add32 st.f fin.f, add32 st.g fin.g, add32 st.h fin.h⟩

/-- Big-endian bytes of the 64-bit message length. -/
def lenBytesBE (n : Nat) : List Nat :=
  [n / 72057594037927936 % 256, n / 281474976710656 % 256,
   n / 1099511627776 % 256, n / 4294967296 % 256,
   n / 16777216 % 256, n / 65536 % 256, n / 256 % 256, n % 256]

/-- SHA-256 padding: append 0x80, zero bytes, and the bit length. -/
def padMessage (msg : List Nat) : List Nat :=
  msg ++ 128 :: List.replicate ((119 - msg.length % 64) % 64) 0
      ++ lenBytesBE (8 * msg.length)

/-- Split a padded message into 64-byte blocks. -/
def toBlocks : List Nat → List (List Nat)
  | [] => []
  | b :: bs => ((b :: bs).take 64) :: toBlocks ((b :: bs).drop 64)
termination_by l => l.length
decreasing_by
  simp [List.length_drop]
  omega

/-- Big-endian bytes of one 32-bit word. -/
def wordToBytesBE (w : Nat) : List Nat :=
  [w / 16777216 % 256, w / 65536 % 256, w / 256 % 256, w % 256]

/-- The eight state words in output order. -/
def hashWords (s : Hash8) : List Nat :=
  [s.a, s.b, s.c, s.d, s.e, s.f, s.g, s.h]

/-- SHA-256 digest of a byte list, as a list of 32 bytes. -/
def sha256 (msg : List Nat) : List Nat :=
  ((hashWords ((toBlocks (padMessage msg)).foldl processBlock initH)).map
    wordToBytesBE).flatten

/-! ## UTF-8 encoding of strings -/

/-- Standard UTF-8 encoding of one code point. -/
def utf8EncodeCp (n : Nat) : List Nat :=
  if n < 128 then [n]
  else if n < 2048 then [192 ||| (n >>> 6), 128 ||| (n &&& 63)]
  else if n < 65536 then
    [224 ||| (n >>> 12), 128 ||| ((n >>> 6) &&& 63), 128 ||| (n &&& 63)]
  else
    [240 ||| (n >>> 18), 128 ||| ((n >>> 12) &&& 63),
     128 ||| ((n >>> 6) &&& 63), 128 ||| (n &&& 63)]

/-- UTF-8 encoding of a string as a byte list. -/
def utf8Encode (s : String) : List Nat :=
  (s.data.map (fun c => utf8EncodeCp c.toNat)).flatten

/-- Anchor instruction discriminator, embedding
calculate_anchor_discriminator: the first 8 bytes of the SHA-256 digest
of the UTF-8 bytes of the string global: followed by the method name. -/
def calculate_anchor_discriminator (instruction_name : String) : List Nat :=
  (sha256 (utf8Encode ("global:" ++ instruction_name))).take 8

/-! ## Addresses, account metadata, instructions and transactions

Base58 address constants are kept symbolic (by their string literal);
freshly generated keypairs are identified by a numeric seed, standing
for the randomness of Keypair(); program-derived addresses are kept as
a symbolic constructor recording the seed list and the deriving
program, which captures exactly the determinism the client relies on. -/

/-- Symbolic model of a Solana public key as used by this client. -/
inductive Pubkey where
  | fromString (s : String) : Pubkey
  | generated (id : Nat) : Pubkey
  | pda (seedLit : List Nat) (seedKey : Pubkey) (program : Pubkey) : Pubkey
deriving DecidableEq

/-- One account reference inside an instruction. -/
structure AccountMeta where
  pubkey : Pubkey
  is_signer : Bool
  is_writable : Bool
deriving DecidableEq

/-- Instruction payloads.  Payloads assembled by this client are raw
byte lists; payloads produced by library builders (system program,
SPL token program, compute budget program) are kept as tagged records
of their arguments, since the client never inspects their bytes. -/
inductive InstrData where
  | raw (bytes : List Nat) : InstrData
  | createAccountData (lamports : Nat) (space : Nat) (owner : Pubkey) : InstrData
  | initializeAccountData : InstrData
  | closeAccountData : InstrData
  | setComputeUnitLimitData (units : Nat) : InstrData
  | setComputeUnitPriceData (microLamports : Nat) : InstrData
deriving DecidableEq

/-- One instruction: target program, payload, ordered account list. -/
structure Instruction where
  program_id : Pubkey
  data : InstrData
  accounts : List AccountMeta
deriving DecidableEq

/-- A signed transaction as assembled by new_signed_with_payer; the
signing keypairs are recorded by their public keys. -/
structure Transaction where
  instructions : List Instruction
  payer : Pubkey
  signing_pubkeys : List Pubkey
  recent_blockhash : Nat
deriving DecidableEq

/-- Address MFv2hWf31Z9kbCa1snEPYctwafyhdvnV7FZnsebVacA. -/
def MARGINFI_PROGRAM_ID : Pubkey :=
  .fromString "MFv2hWf31Z9kbCa1snEPYctwafyhdvnV7FZnsebVacA"

/-- Address So11111111111111111111111111111111111111112. -/
def SOL_MINT_PUBKEY : Pubkey :=
  .fromString "So11111111111111111111111111111111111111112"

/-- Address TokenkegQfeZyiNwAJbNbGKPFXCWuBvf9Ss623VQ5DA. -/
def TOKEN_PROGRAM_ID : Pubkey :=
  .fromString "TokenkegQfeZyiNwAJbNbGKPFXCWuBvf9Ss623VQ5DA"

/-- Address 11111111111111111111111111111111. -/
def SYSTEM_PROGRAM_ID : Pubkey :=
  .fromString "11111111111111111111111111111111"

/-- Address ATokenGPvbdGVxr1b2hvZbsiqW5xWH25efTNsLJA8knL. -/
def ASSOCIATED_TOKEN_PROGRAM_ID : Pubkey :=
  .fromString "ATokenGPvbdGVxr1b2hvZbsiqW5xWH25efTNsLJA8knL"

/-- Address ComputeBudget111111111111111111111111111111, the target of
the solders compute budget builders. -/
def COMPUTE_BUDGET_PROGRAM_ID : Pubkey :=
  .fromString "ComputeBudget111111111111111111111111111111"

/-- Address SysvarRent111111111111111111111111111111111, referenced by
the SPL initialize_account builder. -/
def SYSVAR_RENT_PUBKEY : Pubkey :=
  .fromString "SysvarRent111111111111111111111111111111111"

/-- Token account byte length, spl.token.constants.ACCOUNT_LEN. -/
def ACCOUNT_LEN : Nat := 165

/-- Fixed priority fee in micro-lamports passed to
set_compute_unit_price, the value of int(PRIORITY_FEE_SOL * 1e9) with
PRIORITY_FEE_SOL = 0.00001. -/
def PRIORITY_FEE_MICROLAMPORTS : Nat := 10000

/-- Model of solders set_compute_unit_limit. -/
def set_compute_unit_limit (units : Nat) : Instruction :=
  ⟨COMPUTE_BUDGET_PROGRAM_ID, .setComputeUnitLimitData units, []⟩

/-- Model of solders set_compute_unit_price. -/
def set_compute_unit_price (microLamports : Nat) : Instruction :=
  ⟨COMPUTE_BUDGET_PROGRAM_ID, .setComputeUnitPriceData microLamports, []⟩

/-- Model of solders system_program.create_account. -/
def create_account (from_pubkey to_pubkey : Pubkey) (lamports space : Nat)
    (owner : Pubkey) : Instruction :=
  ⟨SYSTEM_PROGRAM_ID, .createAccountData lamports space owner,
   [⟨from_pubkey, true, true⟩, ⟨to_pubkey, true, true⟩]⟩

/-- Model of spl.token.instructions.initialize_account. -/
def initialize_account (program_id account mint owner : Pubkey) : Instruction :=
  ⟨program_id, .initializeAccountData,
   [⟨account, false, true⟩, ⟨mint, false, false⟩, ⟨owner, false, false⟩,
    ⟨SYSVAR_RENT_PUBKEY, false, false⟩]⟩

/-- Model of spl.token.instructions.close_account. -/
def close_account (account dest owner program_id : Pubkey) : Instruction :=
  ⟨program_id, .closeAccountData,
   [⟨account, false, true⟩, ⟨dest, false, true⟩, ⟨owner, true, false⟩]⟩

/-- Model of Transaction.new_signed_with_payer. -/
def new_signed_with_payer (instructions : List Instruction) (payer : Pubkey)
    (signing_pubkeys : List Pubkey) (recent_blockhash : Nat) : Transaction :=
  ⟨instructions, payer, signing_pubkeys, recent_blockhash⟩

/-- Model of Pubkey.find_program_address for the seed shape used in this
client: a literal byte seed followed by the bytes of one key.  The
derived address records the seeds and the deriving program; the bump is
a fixed token since the client discards it. -/
def find_program_address_lit_key (seedLit : List Nat) (seedKey : Pubkey)
    (program : Pubkey) : Pubkey × Nat :=
  (.pda seedLit seedKey program, 255)

/-- Little-endian encoding of a natural number on a fixed byte width,
the embedding of int.to_bytes(len, little) on its non-raising domain. -/
def encodeLE (n : Nat) : Nat → List Nat
  | 0 => []
  | len + 1 => n % 256 :: encodeLE (n / 256) len

/-- Truncation toward zero, the embedding of the Python int() builtin
on exact rationals. -/
def pyInt (x : Rat) : Int :=
  if 0 ≤ x then Int.ofNat (x.num.toNat / x.den)
  else -Int.ofNat ((-x.num).toNat / x.den)

/-! ## External collaborators and session state -/

/-- What a fetched account looks like to the client. -/
structure AccountInfo where
  owner : Pubkey
  data : List Nat
deriving DecidableEq

/-- Abstract RPC backend: each field is one consumed capability.  A
none result from get_account_info models an absent account, a none
result from send_transaction models a backend rejection. -/
structure RpcBackend where
  get_balance : Pubkey → Nat
  get_account_info : Pubkey → Option AccountInfo
  get_program_accounts : Pubkey → List (Pubkey × List Nat)
  get_minimum_balance_for_rent_exemption : Nat → Nat
  latest_blockhash : Nat
  send_transaction : Transaction → Option Nat

/-- Abstract price oracle: fetch maps a list of coin ids to their USD
prices; a none result models an unreachable oracle (request exception
or timeout). -/
structure PriceApi where
  fetch : List String → Option (List (String × Rat))

/-- The session state of MarginFiClient: the wallet public key and the
three lazily resolved entity caches. -/
structure MarginFiClient where
  keypair_pub : Pubkey
  marginfi_group_key : Option Pubkey
  sol_bank_key : Option Pubkey
  marginfi_account_key : Option Pubkey
  test_mode : Bool
deriving DecidableEq

/-- A freshly initialized client: all caches in the unresolved state. -/
def mkClient (wallet : Pubkey) (test_mode : Bool) : MarginFiClient :=
  ⟨wallet, none, none, none, test_mode⟩

/-- Result of a write operation: the Python boolean return value, the
transaction handed to send_transaction when construction got that far,
and the client state after the call. -/
structure OpResult where
  ok : Bool
  submitted : Option Transaction
  state : MarginFiClient
deriving DecidableEq

/-- Result of create_marginfi_account: the returned account key, the
submitted transaction if any, and the state after the call. -/
structure CreateResult where
  account : Option Pubkey
  submitted : Option Transaction
  state : MarginFiClient
deriving DecidableEq

/-! ## Domain resolver -/

/-- The ordered candidate list tried by find_marginfi_group. -/
def KNOWN_MARGINFI_GROUPS : List String :=
  ["4qp6Fx6tnZkY5Wropq9wUYgtFxXKwE6viZxFHg3rdAG8",
   "3Z9vJPxUjHj47vRq8TBKEbN1fGWNYKWaHpxFNdZR4Jm2",
   "4VcJMDnbYKRCeJ6zF8BKr2k6c5iHBBmjLWdJXnyxVHGY"]

/-- The pinned SOL bank address checked by find_sol_bank. -/
def SOL_BANK_CANDIDATE : Pubkey :=
  .fromString "CCKtUs6Cgwo4aaQUmBPmyoApH2gUDErxNZCAntD6LYGh"

/-- The pinned MarginFi account address used by find_marginfi_account
and by lend_sol. -/
def EXISTING_MARGINFI_ACCOUNT : Pubkey :=
  .fromString "2cZh5HsT3pkKWbhGjhHi56u2oKFSjkDjsoRqt18bxu8W"

/-- The candidate loop of find_marginfi_group: return the first known
address the backend reports as existing and owned by the MarginFi
program. -/
def tryKnownGroups (rpc : RpcBackend) : List String → Option Pubkey
  | [] => none
  | s :: rest =>
      let k := Pubkey.fromString s
      match rpc.get_account_info k with
      | some info =>
          if info.owner = MARGINFI_PROGRAM_ID then some k
          else tryKnownGroups rpc rest
      | none => tryKnownGroups rpc rest

/-- Embedding of find_marginfi_group: try the known candidates, then
fall back to scanning the program accounts for the first one whose data
size is strictly between 10000 and 15000 bytes; cache on success. -/
def find_marginfi_group (rpc : RpcBackend) (st : MarginFiClient) :
    Option Pubkey × MarginFiClient :=
  match tryKnownGroups rpc KNOWN_MARGINFI_GROUPS with
  | some g => (some g, { st with marginfi_group_key := some g })
  | none =>
      match (rpc.get_program_accounts MARGINFI_PROGRAM_ID).find?
          (fun a => decide (10000 < a.2.length) && decide (a.2.length < 15000)) with
      | some a => (some a.1, { st with marginfi_group_key := some a.1 })
      | none => (none, st)

/-- Embedding of find_sol_bank: verify the single pinned candidate is
owned by the MarginFi program; cache on success. -/
def find_sol_bank (rpc : RpcBackend) (st : MarginFiClient) :
    Option Pubkey × MarginFiClient :=
  match rpc.get_account_info SOL_BANK_CANDIDATE with
  | some info =>
      if info.owner = MARGINFI_PROGRAM_ID then
        (some SOL_BANK_CANDIDATE, { st with sol_bank_key := some SOL_BANK_CANDIDATE })
      else (none, st)
  | none => (none, st)

/-- Embedding of find_marginfi_account: verify the single pinned
account is owned by the MarginFi program; cache on success. -/
def find_marginfi_account (rpc : RpcBackend) (st : MarginFiClient) :
    Option Pubkey × MarginFiClient :=
  match rpc.get_account_info EXISTING_MARGINFI_ACCOUNT with
  | some info =>
      if info.owner = MARGINFI_PROGRAM_ID then
        (some EXISTING_MARGINFI_ACCOUNT,
         { st with marginfi_account_key := some EXISTING_MARGINFI_ACCOUNT })
      else (none, st)
  | none => (none, st)

/-! ## Status reporting -/

/-- One entry of the wallet status token list. -/
structure TokenEntry where
  symbol : String
  balance : Rat
  price_usd : Rat
  value_usd : Rat
deriving DecidableEq

/-- The record returned by get_wallet_status. -/
structure WalletStatus where
  wallet_address : Pubkey
  tokens : List TokenEntry
  total_value_usd : Rat
deriving DecidableEq

/-- Embedding of get_sol_balance: wallet lamports divided by 1e9. -/
def get_sol_balance (rpc : RpcBackend) (st : MarginFiClient) : Rat :=
  (rpc.get_balance st.keypair_pub : Rat) / 1000000000

/-- The symbol-to-coin-id table of get_token_prices. -/
def token_map (t : String) : String :=
  if t = "SOL" then "solana"
  else if t = "USDC" then "usd-coin"
  else if t = "USDT" then "tether"
  else t.toLower

/-- Embedding of get_token_prices: on any oracle failure every token
falls back to the constant price 0.0; a token missing from the response
also falls back to 0.0. -/
def get_token_prices (api : PriceApi) (token_ids : List String) :
    List (String × Rat) :=
  match api.fetch (token_ids.map token_map) with
  | none => token_ids.map (fun t => (t, 0))
  | some data => token_ids.map (fun t => (t, (data.lookup (token_map t)).getD 0))

/-- Embedding of get_wallet_status: SOL balance, oracle price, USD
value, and the list of tokens worth more than 0.1 USD. -/
def get_wallet_status (rpc : RpcBackend) (api : PriceApi)
    (st : MarginFiClient) : WalletStatus :=
  let sol_balance := get_sol_balance rpc st
  let prices := get_token_prices api ["SOL"]
  let sol_price := (prices.lookup "SOL").getD 0
  let sol_usd_value := sol_balance * sol_price
  let tokens :=
    if sol_usd_value > 1 / 10 then
      [⟨"SOL", sol_balance, sol_price, sol_usd_value⟩]
    else ([] : List TokenEntry)
  ⟨st.keypair_pub, tokens, (tokens.map TokenEntry.value_usd).sum⟩

/-- Embedding of parse_bank_apy: buffers shorter than 200 bytes give
0.0, everything else gives the placeholder constant 2.5, regardless of
the buffer contents. -/
def parse_bank_apy (bank_data : List Nat) : Rat :=
  if bank_data.length < 200 then 0 else 5 / 2

/-- Embedding of get_sol_apy: resolve the bank if needed, fetch its
account data, and parse; every failure path degrades to 0.0.  The data
check mirrors the Python truthiness test, under which empty account
data is skipped. -/
def get_sol_apy (rpc : RpcBackend) (st : MarginFiClient) :
    Rat × MarginFiClient :=
  let st := if st.sol_bank_key = none then (find_sol_bank rpc st).2 else st
  match st.sol_bank_key with
  | none => (0, st)
  | some bank =>
      match rpc.get_account_info bank with
      | some info =>
          if info.data ≠ [] then (parse_bank_apy info.data, st) else (0, st)
      | none => (0, st)

/-! ## Write operations -/

/-- Embedding of create_marginfi_account.  newId identifies the freshly
generated keypair for the new account.  The new account key is cached
only after a successful send, mirroring the source. -/
def create_marginfi_account (rpc : RpcBackend) (st : MarginFiClient)
    (newId : Nat) : CreateResult :=
  let wallet := st.keypair_pub
  let st := if st.marginfi_group_key = none then (find_marginfi_group rpc st).2 else st
  let st := if st.sol_bank_key = none then (find_sol_bank rpc st).2 else st
  match st.marginfi_group_key with
  | none => ⟨none, none, st⟩
  | some groupKey =>
      let marginfi_account_pubkey := Pubkey.generated newId
      match rpc.get_account_info marginfi_account_pubkey with
      | some _ =>
          ⟨some marginfi_account_pubkey, none,
           { st with marginfi_account_key := some marginfi_account_pubkey }⟩
      | none =>
          let instruction_data :=
            InstrData.raw (calculate_anchor_discriminator "marginfi_account_initialize")
          let accounts : List AccountMeta :=
            [⟨groupKey, false, false⟩,
             ⟨marginfi_account_pubkey, true, true⟩,
             ⟨wallet, true, false⟩,
             ⟨wallet, true, true⟩,
             ⟨SYSTEM_PROGRAM_ID, false, false⟩]
          let marginfi_instruction : Instruction :=
            ⟨MARGINFI_PROGRAM_ID, instruction_data, accounts⟩
          let full_instructions :=
            [set_compute_unit_limit 300000,
             set_compute_unit_price PRIORITY_FEE_MICROLAMPORTS,
             marginfi_instruction]
          let tx := new_signed_with_payer full_instructions wallet
            [wallet, marginfi_account_pubkey] rpc.latest_blockhash
          match rpc.send_transaction tx with
          | some _ =>
              ⟨some marginfi_account_pubkey, some tx,
               { st with marginfi_account_key := some marginfi_account_pubkey }⟩
          | none => ⟨none, some tx, st⟩

/-- Embedding of lend_sol.  tempId identifies the freshly generated
temporary WSOL keypair; amount is in SOL.  The pinned MarginFi account
is assigned to the cache unconditionally at the start, as in the
source.  The range guard on the lamport amount models the raising
domain of int.to_bytes, whose OverflowError the source catches and
turns into a False return with nothing submitted. -/
def lend_sol (rpc : RpcBackend) (st : MarginFiClient) (tempId : Nat)
    (amount : Rat) : OpResult :=
  let wallet := st.keypair_pub
  let amount_lamports : Int := pyInt (amount * 1000000000)
  let st := { st with marginfi_account_key := some EXISTING_MARGINFI_ACCOUNT }
  let st := if st.marginfi_group_key = none then (find_marginfi_group rpc st).2 else st
  match st.marginfi_group_key with
  | none => ⟨false, none, st⟩
  | some groupKey =>
      let st := if st.sol_bank_key = none then (find_sol_bank rpc st).2 else st
      match st.sol_bank_key with
      | none => ⟨false, none, st⟩
      | some bankKey =>
          let bank_vault :=
            (find_program_address_lit_key (utf8Encode "liquidity_vault")
              bankKey MARGINFI_PROGRAM_ID).1
          let temp_wsol_account := Pubkey.generated tempId
          let rent_lamports := rpc.get_minimum_balance_for_rent_exemption ACCOUNT_LEN
          if 0 ≤ amount_lamports ∧ amount_lamports < 18446744073709551616 then
            let lamports := amount_lamports.toNat
            let ix1 := create_account wallet temp_wsol_account
              (rent_lamports + lamports) ACCOUNT_LEN TOKEN_PROGRAM_ID
            let ix2 := initialize_account TOKEN_PROGRAM_ID temp_wsol_account
              SOL_MINT_PUBKEY wallet
            let instruction_data :=
              InstrData.raw (calculate_anchor_discriminator "lending_account_deposit"
                ++ encodeLE lamports 8 ++ [0])
            let deposit_accounts : List AccountMeta :=
              [⟨groupKey, false, false⟩,
               ⟨EXISTING_MARGINFI_ACCOUNT, false, true⟩,
               ⟨wallet, true, true⟩,
               ⟨bankKey, false, true⟩,
               ⟨temp_wsol_account, false, true⟩,
               ⟨bank_vault, false, true⟩,
               ⟨TOKEN_PROGRAM_ID, false, false⟩]
            let ix3 : Instruction :=
              ⟨MARGINFI_PROGRAM_ID, instruction_data, deposit_accounts⟩
            let ix4 := close_account temp_wsol_account wallet wallet TOKEN_PROGRAM_ID
            let full_instructions :=
              [set_compute_unit_limit 400000,
               set_compute_unit_price PRIORITY_FEE_MICROLAMPORTS,
               ix1, ix2, ix3, ix4]
            let tx := new_signed_with_payer full_instructions wallet
              [wallet, temp_wsol_account] rpc.latest_blockhash
            match rpc.send_transaction tx with
            | some _ => ⟨true, some tx, st⟩
            | none => ⟨false, some tx, st⟩
          else ⟨false, none, st⟩

/-- The pinned withdraw discriminator literal from the source. -/
def WITHDRAW_DISCRIMINATOR : List Nat := [183, 18, 70, 156, 148, 109, 161, 34]

/-- Embedding of withdraw_from_pool.  The group key is read from the
cache without any resolution attempt; when it is unset the source
raises while building the account list and the surrounding handler
returns False, which the none branch models. -/
def withdraw_from_pool (rpc : RpcBackend) (st : MarginFiClient) (tempId : Nat)
    (_pool_id : String) (amount : Rat) : OpResult :=
  let wallet := st.keypair_pub
  let amount_lamports : Int := pyInt (amount * 1000000000)
  let st := if st.marginfi_account_key = none then (find_marginfi_account rpc st).2 else st
  match st.marginfi_account_key with
  | none => ⟨false, none, st⟩
  | some accountKey =>
      let st := if st.sol_bank_key = none then (find_sol_bank rpc st).2 else st
      match st.sol_bank_key with
      | none => ⟨false, none, st⟩
      | some bankKey =>
          match st.marginfi_group_key with
          | none => ⟨false, none, st⟩
          | some groupKey =>
              let bank_vault :=
                (find_program_address_lit_key (utf8Encode "liquidity_vault")
                  bankKey MARGINFI_PROGRAM_ID).1
              let temp_wsol_account := Pubkey.generated tempId
              let rent_lamports := rpc.get_minimum_balance_for_rent_exemption ACCOUNT_LEN
              if 0 ≤ amount_lamports ∧ amount_lamports < 18446744073709551616 then
                let lamports := amount_lamports.toNat
                let ix1 := create_account wallet temp_wsol_account
                  rent_lamports ACCOUNT_LEN TOKEN_PROGRAM_ID
                let ix2 := initialize_account TOKEN_PROGRAM_ID temp_wsol_account
                  SOL_MINT_PUBKEY wallet
                let instruction_data :=
                  InstrData.raw (WITHDRAW_DISCRIMINATOR ++ encodeLE lamports 8)
                let withdraw_accounts : List AccountMeta :=
                  [⟨accountKey, false, true⟩,
                   ⟨groupKey, false, false⟩,
                   ⟨temp_wsol_account, false, true⟩,
                   ⟨bankKey, false, true⟩,
                   ⟨bank_vault, false, true⟩,
                   ⟨TOKEN_PROGRAM_ID, false, false⟩,
                   ⟨wallet, true, true⟩]
                let ix3 : Instruction :=
                  ⟨MARGINFI_PROGRAM_ID, instruction_data, withdraw_accounts⟩
                let ix4 := close_account temp_wsol_account wallet wallet TOKEN_PROGRAM_ID
                let full_instructions :=
                  [set_compute_unit_limit 400000,
                   set_compute_unit_price PRIORITY_FEE_MICROLAMPORTS,
                   ix1, ix2, ix3, ix4]
                let tx := new_signed_with_payer full_instructions wallet
                  [wallet, temp_wsol_account] rpc.latest_blockhash
                match rpc.send_transaction tx with
                | some _ => ⟨true, some tx, st⟩
                | none => ⟨false, some tx, st⟩
              else ⟨false, none, st⟩

/-- Embedding of auto_lending_flow: the non-interactive lending path.
It validates only that the amount does not exceed the reported SOL
balance before delegating to lend_sol. -/
def auto_lending_flow (rpc : RpcBackend) (st : MarginFiClient)
    (wallet_status : WalletStatus) (tempId : Nat) (amount : Rat) : OpResult :=
  let sol_tokens := wallet_status.tokens.filter (fun t => t.symbol == "SOL")
  match sol_tokens with
  | [] => ⟨false, none, st⟩
  | tok :: _ =>
      let sol_balance := tok.balance
      let (_, st) := get_sol_apy rpc st
      if amount > sol_balance then ⟨false, none, st⟩
      else lend_sol rpc st tempId amount

/-! ## Spec-side predicates and concrete fixtures -/

/-- Spec-side acceptance test for a group candidate: the backend
reports the address as existing and owned by the lending program. -/
def acceptsCandidate (rpc : RpcBackend) (k : Pubkey) : Bool :=
  match rpc.get_account_info k with
  | some info => decide (info.owner = MARGINFI_PROGRAM_ID)
  | none => false

/-- A backend that knows nothing and rejects every send. -/
def trivRpc : RpcBackend :=
  ⟨fun _ => 0, fun _ => none, fun _ => [], fun _ => 0, 0, fun _ => none⟩

/-- A client state with group and bank caches already populated. -/
def stResolved : MarginFiClient :=
  ⟨Pubkey.generated 100, some (Pubkey.generated 1), some (Pubkey.generated 2),
   none, false⟩

/-- A client state with all three caches populated. -/
def stFull : MarginFiClient :=
  ⟨Pubkey.generated 100, some (Pubkey.generated 1), some (Pubkey.generated 2),
   some (Pubkey.generated 3), false⟩

/-- An always-unreachable price oracle. -/
def downApi : PriceApi := ⟨fun _ => none⟩

/-- A 10000-byte buffer, the boundary of the group-sized range. -/
def groupSizedData : List Nat := List.replicate 10000 0

/-- Backend for the group-resolution boundary counterexample: no
candidate exists and the program owns a single account of exactly
10000 data bytes. -/
def c6rpc : RpcBackend :=
  ⟨fun _ => 0, fun _ => none,
   fun _ => [(Pubkey.generated 0, groupSizedData)],
   fun _ => 0, 0, fun _ => none⟩

/-- A client state whose lending-account cache is already populated
with an address different from the pinned constant. -/
def c7st : MarginFiClient :=
  ⟨Pubkey.generated 9, none, none, some (Pubkey.generated 7), false⟩

/-- Backend for the zero-amount lending counterexample: the first known
group candidate and the pinned bank both verify, and sends succeed. -/
def c9rpc : RpcBackend :=
  ⟨fun _ => 10000000,
   fun k =>
     if k = Pubkey.fromString "4qp6Fx6tnZkY5Wropq9wUYgtFxXKwE6viZxFHg3rdAG8" then
       some ⟨MARGINFI_PROGRAM_ID, []⟩
     else if k = SOL_BANK_CANDIDATE then some ⟨MARGINFI_PROGRAM_ID, []⟩
     else none,
   fun _ => [], fun _ => 2039280, 0, fun _ => some 1⟩

/-- A wallet status reporting 0.01 SOL available. -/
def c9ws : WalletStatus :=
  ⟨Pubkey.generated 100, [⟨"SOL", 1 / 100, 100, 1⟩], 1⟩

/-- Backend whose pinned bank account carries 200 data bytes. -/
def c10rpc : RpcBackend :=
  ⟨fun _ => 0,
   fun k =>
     if k = SOL_BANK_CANDIDATE then
       some ⟨MARGINFI_PROGRAM_ID, List.replicate 200 0⟩
     else none,
   fun _ => [], fun _ => 0, 0, fun _ => none⟩

/-! ## Shared lemmas -/

/-- The boundary buffer has exactly 10000 bytes. -/
theorem groupSizedData_length : groupSizedData.length = 10000 := by
  unfold groupSizedData
  rw [List.length_replicate]

/-- The SHA-256 embedding always produces a 32-byte digest. -/
theorem sha256_length (msg : List Nat) : (sha256 msg).length = 32 := rfl

/-- The candidate loop of find_marginfi_group is first-match search
over the known list. -/
theorem tryKnownGroups_eq_find (rpc : RpcBackend) (l : List String) :
    tryKnownGroups rpc l = (l.map Pubkey.fromString).find? (acceptsCandidate rpc) := by
  induction l with
  | nil => rfl
  | cons s rest ih =>
      simp only [tryKnownGroups, List.map_cons, List.find?_cons, acceptsCandidate]
      cases h : rpc.get_account_info (Pubkey.fromString s) with
      | none => simpa using ih
      | some info =>
          by_cases ho : info.owner = MARGINFI_PROGRAM_ID <;> simp [ho, ih]

/-- Python int() truncation is the identity on whole numbers. -/
theorem pyInt_natCast (n : Nat) : pyInt (n : Rat) = (n : Int) := by
  unfold pyInt
  rw [if_pos (by positivity)]
  simp [Rat.num_natCast, Rat.den_natCast]

/-- find_sol_bank never changes the wallet key. -/
theorem find_sol_bank_keypair (rpc : RpcBackend) (st : MarginFiClient) :
    ((find_sol_bank rpc st).2).keypair_pub = st.keypair_pub := by
  unfold find_sol_bank
  cases h : rpc.get_account_info SOL_BANK_CANDIDATE with
  | none => rfl
  | some info => by_cases ho : info.owner = MARGINFI_PROGRAM_ID <;> simp [ho]

/-- find_sol_bank never changes the group cache. -/
theorem find_sol_bank_group (rpc : RpcBackend) (st : MarginFiClient) :
    ((find_sol_bank rpc st).2).marginfi_group_key = st.marginfi_group_key := by
  unfold find_sol_bank
  cases h : rpc.get_account_info SOL_BANK_CANDIDATE with
  | none => rfl
  | some info => by_cases ho : info.owner = MARGINFI_PROGRAM_ID <;> simp [ho]

/-- find_sol_bank never changes the lending-account cache. -/
theorem find_sol_bank_account (rpc : RpcBackend) (st : MarginFiClient) :
    ((find_sol_bank rpc st).2).marginfi_account_key = st.marginfi_account_key := by
  unfold find_sol_bank
  cases h : rpc.get_account_info SOL_BANK_CANDIDATE with
  | none => rfl
  | some info => by_cases ho : info.owner = MARGINFI_PROGRAM_ID <;> simp [ho]

/-- find_marginfi_group never changes the bank cache. -/
theorem find_marginfi_group_bank (rpc : RpcBackend) (st : MarginFiClient) :
    ((find_marginfi_group rpc st).2).sol_bank_key = st.sol_bank_key := by
  unfold find_marginfi_group
  cases h : tryKnownGroups rpc KNOWN_MARGINFI_GROUPS with
  | some g => simp
  | none =>
      cases h2 : (rpc.get_program_accounts MARGINFI_PROGRAM_ID).find?
          (fun a => decide (10000 < a.2.length) && decide (a.2.length < 15000)) with
      | some a => simp
      | none => simp

/-- find_marginfi_group never changes the wallet key. -/
theorem find_marginfi_group_keypair (rpc : RpcBackend) (st : MarginFiClient) :
    ((find_marginfi_group rpc st).2).keypair_pub = st.keypair_pub := by
  unfold find_marginfi_group
  cases h : tryKnownGroups rpc KNOWN_MARGINFI_GROUPS with
  | some g => simp
  | none =>
      cases h2 : (rpc.get_program_accounts MARGINFI_PROGRAM_ID).find?
          (fun a => decide (10000 < a.2.length) && decide (a.2.length < 15000)) with
      | some a => simp
      | none => simp

/-- find_marginfi_account never changes the group cache. -/
theorem find_marginfi_account_group (rpc : RpcBackend) (st : MarginFiClient) :
    ((find_marginfi_account rpc st).2).marginfi_group_key
      = st.marginfi_group_key := by
  unfold find_marginfi_account
  cases h : rpc.get_account_info EXISTING_MARGINFI_ACCOUNT with
  | none => rfl
  | some info => by_cases ho : info.owner = MARGINFI_PROGRAM_ID <;> simp [ho]

/-- find_marginfi_account never changes the bank cache. -/
theorem find_marginfi_account_bank (rpc : RpcBackend) (st : MarginFiClient) :
    ((find_marginfi_account rpc st).2).sol_bank_key = st.sol_bank_key := by
  unfold find_marginfi_account
  cases h : rpc.get_account_info EXISTING_MARGINFI_ACCOUNT with
  | none => rfl
  | some info => by_cases ho : info.owner = MARGINFI_PROGRAM_ID <;> simp [ho]

/-! ## Claim C1 -/

/-- C1: for every method name the discriminator is the first 8 bytes of
the SHA-256 digest of the UTF-8 encoding of global: plus the name; it
always has exactly 8 bytes, and as a pure function it returns the same
bytes on every call with the same name. -/
theorem C1_discriminator_encoding (m : String) :
    calculate_anchor_discriminator m
        = (sha256 (utf8Encode ("global:" ++ m))).take 8
      ∧ (calculate_anchor_discriminator m).length = 8
      ∧ calculate_anchor_discriminator m = calculate_anchor_discriminator m := by
  refine ⟨rfl, ?_, rfl⟩
  simp [calculate_anchor_discriminator, List.length_take,
    sha256_length (utf8Encode ("global:" ++ m))]

/-! ## Claim C8 -/

/-- C8: when the price oracle is unreachable, get_token_prices
substitutes the fallback price 0.0 for the quote and get_wallet_status
still returns a status record rather than propagating the failure. -/
theorem C8_oracle_fallback (rpc : RpcBackend) (api : PriceApi)
    (st : MarginFiClient) (hapi : ∀ q, api.fetch q = none) :
    get_token_prices api ["SOL"] = [("SOL", 0)]
      ∧ get_wallet_status rpc api st = ⟨st.keypair_pub, [], 0⟩ := by
  constructor
  · simp [get_token_prices, hapi]
  · simp [get_wallet_status, get_token_prices, hapi]
    norm_num

/-- Witness for C8 at a concrete backend, oracle and client. -/
theorem C8_oracle_fallback_witness :
    (∀ q, downApi.fetch q = none)
      ∧ get_wallet_status trivRpc downApi (mkClient (Pubkey.generated 3) false)
          = ⟨Pubkey.generated 3, [], 0⟩ :=
  ⟨fun _ => rfl,
   (C8_oracle_fallback trivRpc downApi (mkClient (Pubkey.generated 3) false)
     (fun _ => rfl)).2⟩

/-! ## Claim C10 -/

/-- C10: parse_bank_apy returns 0.0 on buffers shorter than 200 bytes
and the constant 2.5 on all others, independently of the contents; and
get_sol_apy returns 0.0 when the bank stays unresolved or its account
data is unavailable, and 2.5 when bank data of at least 200 bytes is
fetched. -/
theorem C10_parse_bank_apy_stub :
    (∀ b : List Nat, b.length < 200 → parse_bank_apy b = 0)
      ∧ (∀ b : List Nat, 200 ≤ b.length → parse_bank_apy b = 5 / 2)
      ∧ (∀ rpc st, st.sol_bank_key = none →
          ((find_sol_bank rpc st).2).sol_bank_key = none →
          (get_sol_apy rpc st).1 = 0)
      ∧ (∀ rpc st bank, st.sol_bank_key = some bank →
          rpc.get_account_info bank = none → (get_sol_apy rpc st).1 = 0)
      ∧ (∀ rpc st bank info, st.sol_bank_key = some bank →
          rpc.get_account_info bank = some info → 200 ≤ info.data.length →
          (get_sol_apy rpc st).1 = 5 / 2) := by
  refine ⟨?_, ?_, ?_, ?_, ?_⟩
  · intro b h; simp [parse_bank_apy, h]
  · intro b h; simp [parse_bank_apy, Nat.not_lt.mpr h]
  · intro rpc st h1 h2; simp [get_sol_apy, h1, h2]
  · intro rpc st bank h1 h2
    simp [get_sol_apy, h1, h2]
  · intro rpc st bank info h1 h2 h3
    have hne : info.data ≠ [] := by
      intro he; rw [he] at h3; simp at h3
    simp [get_sol_apy, h1, h2, hne, parse_bank_apy, Nat.not_lt.mpr h3]

/-- Witness for C10 at concrete buffers, backend and states. -/
theorem C10_parse_bank_apy_stub_witness :
    parse_bank_apy [1, 2, 3] = 0
      ∧ parse_bank_apy (List.replicate 200 7) = 5 / 2
      ∧ (get_sol_apy trivRpc (mkClient (Pubkey.generated 4) false)).1 = 0
      ∧ (get_sol_apy trivRpc stResolved).1 = 0
      ∧ (get_sol_apy c10rpc
          ⟨Pubkey.generated 4, none, some SOL_BANK_CANDIDATE, none, false⟩).1 = 5 / 2 :=
  ⟨C10_parse_bank_apy_stub.1 _ (by decide),
   C10_parse_bank_apy_stub.2.1 _ (by simp only [List.length_replicate, le_refl]),
   C10_parse_bank_apy_stub.2.2.1 trivRpc _ rfl rfl,
   C10_parse_bank_apy_stub.2.2.2.1 trivRpc stResolved (Pubkey.generated 2) rfl rfl,
   C10_parse_bank_apy_stub.2.2.2.2 c10rpc _ SOL_BANK_CANDIDATE
     ⟨MARGINFI_PROGRAM_ID, List.replicate 200 0⟩ rfl rfl
     (by simp only [List.length_replicate, le_refl])⟩

/-! ## Claim C2 -/

/-- C2: with group and bank resolved, for every positive deposit amount
the deposit instruction built by lend_sol targets the lending program,
its payload is the lending_account_deposit discriminator followed by
the 8-byte little-endian amount followed by the 0x00 None tag, and its
account list is group (read-only), lending account (writable),
authority (signer, writable), bank (writable), temporary token account
(writable), liquidity vault (writable), token program (read-only), in
that order. -/
theorem C2_deposit_instruction (rpc : RpcBackend) (st : MarginFiClient)
    (tempId : Nat) (amount : Rat) (g b : Pubkey)
    (hg : st.marginfi_group_key = some g) (hb : st.sol_bank_key = some b)
    (hpos : 0 < amount)
    (hdom : pyInt (amount * 1000000000) < 18446744073709551616) :
    ((lend_sol rpc st tempId amount).submitted.bind
        fun tx => tx.instructions[4]?) =
      some ⟨MARGINFI_PROGRAM_ID,
        .raw (calculate_anchor_discriminator "lending_account_deposit"
          ++ encodeLE (pyInt (amount * 1000000000)).toNat 8 ++ [0]),
        [⟨g, false, false⟩,
         ⟨EXISTING_MARGINFI_ACCOUNT, false, true⟩,
         ⟨st.keypair_pub, true, true⟩,
         ⟨b, false, true⟩,
         ⟨Pubkey.generated tempId, false, true⟩,
         ⟨(find_program_address_lit_key (utf8Encode "liquidity_vault") b
             MARGINFI_PROGRAM_ID).1, false, true⟩,
         ⟨TOKEN_PROGRAM_ID, false, false⟩]⟩ := by
  have h0 : (0 : Int) ≤ pyInt (amount * 1000000000) := by
    have hx : (0 : Rat) ≤ amount * 1000000000 := by positivity
    simp only [pyInt, if_pos hx]
    exact Int.ofNat_nonneg _
  simp only [lend_sol, hg, hb, h0, hdom, and_self, if_true, reduceCtorEq,
    reduceIte]
  split
  · simp [new_signed_with_payer, List.append_assoc]
  · simp [new_signed_with_payer, List.append_assoc]

/-- Witness for C2 at a concrete backend, resolved state and a deposit
of 0.003 SOL. -/
theorem C2_deposit_instruction_witness :
    (0 : Rat) < 3 / 1000
      ∧ pyInt ((3 / 1000 : Rat) * 1000000000) < 18446744073709551616
      ∧ ((lend_sol trivRpc stResolved 5 (3 / 1000)).submitted.bind
          fun tx => tx.instructions[4]?) =
        some ⟨MARGINFI_PROGRAM_ID,
          .raw (calculate_anchor_discriminator "lending_account_deposit"
            ++ encodeLE (pyInt ((3 / 1000 : Rat) * 1000000000)).toNat 8 ++ [0]),
          [⟨Pubkey.generated 1, false, false⟩,
           ⟨EXISTING_MARGINFI_ACCOUNT, false, true⟩,
           ⟨stResolved.keypair_pub, true, true⟩,
           ⟨Pubkey.generated 2, false, true⟩,
           ⟨Pubkey.generated 5, false, true⟩,
           ⟨(find_program_address_lit_key (utf8Encode "liquidity_vault")
               (Pubkey.generated 2) MARGINFI_PROGRAM_ID).1, false, true⟩,
           ⟨TOKEN_PROGRAM_ID, false, false⟩]⟩ := by
  have e1 : ((3 : Rat) / 1000 * 1000000000) = ((3000000 : Nat) : Rat) := by
    norm_num
  have hdom : pyInt ((3 / 1000 : Rat) * 1000000000) < 18446744073709551616 := by
    rw [e1, pyInt_natCast]; norm_num
  exact ⟨by norm_num, hdom,
    C2_deposit_instruction trivRpc stResolved 5 (3 / 1000)
      (Pubkey.generated 1) (Pubkey.generated 2) rfl rfl (by norm_num) hdom⟩

/-! ## Claim C3 -/

/-- C3: with the lending account, group and bank available, for every
positive withdrawal amount the withdraw instruction payload is the
pinned 8-byte discriminator literal followed by the 8-byte
little-endian amount with no optional-flag byte, and its account list
is lending account (writable), group (read-only), temporary token
account (writable), bank (writable), vault (writable), token program
(read-only), authority (signer, writable), in that order. -/
theorem C3_withdraw_instruction (rpc : RpcBackend) (st : MarginFiClient)
    (tempId : Nat) (pool : String) (amount : Rat) (a g b : Pubkey)
    (ha : st.marginfi_account_key = some a)
    (hg : st.marginfi_group_key = some g) (hb : st.sol_bank_key = some b)
    (hpos : 0 < amount)
    (hdom : pyInt (amount * 1000000000) < 18446744073709551616) :
    ((withdraw_from_pool rpc st tempId pool amount).submitted.bind
        fun tx => tx.instructions[4]?) =
      some ⟨MARGINFI_PROGRAM_ID,
        .raw (WITHDRAW_DISCRIMINATOR
          ++ encodeLE (pyInt (amount * 1000000000)).toNat 8),
        [⟨a, false, true⟩,
         ⟨g, false, false⟩,
         ⟨Pubkey.generated tempId, false, true⟩,
         ⟨b, false, true⟩,
         ⟨(find_program_address_lit_key (utf8Encode "liquidity_vault") b
             MARGINFI_PROGRAM_ID).1, false, true⟩,
         ⟨TOKEN_PROGRAM_ID, false, false⟩,
         ⟨st.keypair_pub, true, true⟩]⟩ := by
  have h0 : (0 : Int) ≤ pyInt (amount * 1000000000) := by
    have hx : (0 : Rat) ≤ amount * 1000000000 := by positivity
    simp only [pyInt, if_pos hx]
    exact Int.ofNat_nonneg _
  simp only [withdraw_from_pool, ha, hg, hb, h0, hdom, and_self, if_true,
    reduceCtorEq, reduceIte]
  split
  · simp [new_signed_with_payer]
  · simp [new_signed_with_payer]

/-- Witness for C3 at a concrete backend, fully resolved state and a
withdrawal of 0.002 SOL. -/
theorem C3_withdraw_instruction_witness :
    (0 : Rat) < 2 / 1000
      ∧ pyInt ((2 / 1000 : Rat) * 1000000000) < 18446744073709551616
      ∧ ((withdraw_from_pool trivRpc
            ⟨Pubkey.generated 100, some (Pubkey.generated 1),
             some (Pubkey.generated 2), some (Pubkey.generated 3), false⟩
            5 "pool" (2 / 1000)).submitted.bind
          fun tx => tx.instructions[4]?) =
        some ⟨MARGINFI_PROGRAM_ID,
          .raw (WITHDRAW_DISCRIMINATOR
            ++ encodeLE (pyInt ((2 / 1000 : Rat) * 1000000000)).toNat 8),
          [⟨Pubkey.generated 3, false, true⟩,
           ⟨Pubkey.generated 1, false, false⟩,
           ⟨Pubkey.generated 5, false, true⟩,
           ⟨Pubkey.generated 2, false, true⟩,
           ⟨(find_program_address_lit_key (utf8Encode "liquidity_vault")
               (Pubkey.generated 2) MARGINFI_PROGRAM_ID).1, false, true⟩,
           ⟨TOKEN_PROGRAM_ID, false, false⟩,
           ⟨Pubkey.generated 100, true, true⟩]⟩ := by
  have e1 : ((2 : Rat) / 1000 * 1000000000) = ((2000000 : Nat) : Rat) := by
    norm_num
  have hdom : pyInt ((2 / 1000 : Rat) * 1000000000) < 18446744073709551616 := by
    rw [e1, pyInt_natCast]; norm_num
  exact ⟨by norm_num, hdom,
    C3_withdraw_instruction trivRpc
      ⟨Pubkey.generated 100, some (Pubkey.generated 1),
       some (Pubkey.generated 2), some (Pubkey.generated 3), false⟩
      5 "pool" (2 / 1000) (Pubkey.generated 3) (Pubkey.generated 1)
      (Pubkey.generated 2) rfl rfl rfl (by norm_num) hdom⟩

/-! ## Claim C4 -/

/-- C4: with the group resolved and the fresh key unused on chain,
create_marginfi_account submits a transaction whose only operational
instruction carries the marginfi_account_initialize discriminator with
no arguments and the account list group (read-only), new account
(signer, writable), authority (signer), fee payer (signer, writable),
system program; the new account is the freshly generated keypair, not a
program-derived address, and it co-signs together with the wallet
key. -/
theorem C4_create_account_instruction (rpc : RpcBackend)
    (st : MarginFiClient) (newId : Nat) (g : Pubkey)
    (hg : st.marginfi_group_key = some g)
    (hnew : rpc.get_account_info (Pubkey.generated newId) = none) :
    ∃ tx, (create_marginfi_account rpc st newId).submitted = some tx
      ∧ tx.instructions =
          [set_compute_unit_limit 300000,
           set_compute_unit_price PRIORITY_FEE_MICROLAMPORTS,
           ⟨MARGINFI_PROGRAM_ID,
            .raw (calculate_anchor_discriminator "marginfi_account_initialize"),
            [⟨g, false, false⟩,
             ⟨Pubkey.generated newId, true, true⟩,
             ⟨st.keypair_pub, true, false⟩,
             ⟨st.keypair_pub, true, true⟩,
             ⟨SYSTEM_PROGRAM_ID, false, false⟩]⟩]
      ∧ tx.signing_pubkeys = [st.keypair_pub, Pubkey.generated newId]
      ∧ ∀ sLit sKey prog, Pubkey.generated newId ≠ Pubkey.pda sLit sKey prog := by
  have hne : ∀ sLit sKey prog, Pubkey.generated newId ≠ Pubkey.pda sLit sKey prog := by
    intro sLit sKey prog h
    exact Pubkey.noConfusion h
  simp only [create_marginfi_account, hg, reduceCtorEq, reduceIte]
  generalize hst2 :
    (if st.sol_bank_key = none then (find_sol_bank rpc st).2 else st) = st2
  have h2g : st2.marginfi_group_key = some g := by
    rw [← hst2]; split
    · rw [find_sol_bank_group]; exact hg
    · exact hg
  have h2k : st2.keypair_pub = st.keypair_pub := by
    rw [← hst2]; split
    · exact find_sol_bank_keypair rpc st
    · rfl
  simp only [h2g, h2k, hnew]
  split
  · exact ⟨_, rfl, rfl, rfl, hne⟩
  · exact ⟨_, rfl, rfl, rfl, hne⟩

/-- Witness for C4 at a concrete backend, resolved group and a fresh
keypair. -/
theorem C4_create_account_instruction_witness :
    stResolved.marginfi_group_key = some (Pubkey.generated 1)
      ∧ trivRpc.get_account_info (Pubkey.generated 50) = none
      ∧ ∃ tx, (create_marginfi_account trivRpc stResolved 50).submitted = some tx
          ∧ tx.instructions =
              [set_compute_unit_limit 300000,
               set_compute_unit_price PRIORITY_FEE_MICROLAMPORTS,
               ⟨MARGINFI_PROGRAM_ID,
                .raw (calculate_anchor_discriminator "marginfi_account_initialize"),
                [⟨Pubkey.generated 1, false, false⟩,
                 ⟨Pubkey.generated 50, true, true⟩,
                 ⟨stResolved.keypair_pub, true, false⟩,
                 ⟨stResolved.keypair_pub, true, true⟩,
                 ⟨SYSTEM_PROGRAM_ID, false, false⟩]⟩]
          ∧ tx.signing_pubkeys = [stResolved.keypair_pub, Pubkey.generated 50]
          ∧ ∀ sLit sKey prog, Pubkey.generated 50 ≠ Pubkey.pda sLit sKey prog :=
  ⟨rfl, rfl,
   C4_create_account_instruction trivRpc stResolved 50 (Pubkey.generated 1)
     rfl rfl⟩

/-! ## Claim C5 -/

/-- C5: every transaction submitted by the three flows starts with a
compute unit limit directive followed by a compute unit price
directive, ahead of the operational instructions, none of which targets
the compute budget program; the limit is 400000 for deposit and
withdraw and 300000 for account creation; the deposit and withdraw
flows carry exactly 4 operational instructions (6 in total) and account
creation exactly 1. -/
theorem C5_compute_budget_and_counts :
    (∀ rpc st tempId amount g b, st.marginfi_group_key = some g →
      st.sol_bank_key = some b → (0 : Rat) < amount →
      pyInt (amount * 1000000000) < 18446744073709551616 →
      ∃ tx ops, (lend_sol rpc st tempId amount).submitted = some tx
        ∧ tx.instructions = set_compute_unit_limit 400000 ::
            set_compute_unit_price PRIORITY_FEE_MICROLAMPORTS :: ops
        ∧ ops.length = 4
        ∧ ∀ i ∈ ops, i.program_id ≠ COMPUTE_BUDGET_PROGRAM_ID)
    ∧ (∀ rpc st tempId pool amount a g b, st.marginfi_account_key = some a →
        st.marginfi_group_key = some g → st.sol_bank_key = some b →
        (0 : Rat) < amount →
        pyInt (amount * 1000000000) < 18446744073709551616 →
        ∃ tx ops, (withdraw_from_pool rpc st tempId pool amount).submitted = some tx
          ∧ tx.instructions = set_compute_unit_limit 400000 ::
              set_compute_unit_price PRIORITY_FEE_MICROLAMPORTS :: ops
          ∧ ops.length = 4
          ∧ ∀ i ∈ ops, i.program_id ≠ COMPUTE_BUDGET_PROGRAM_ID)
    ∧ (∀ rpc st newId g, st.marginfi_group_key = some g →
        rpc.get_account_info (Pubkey.generated newId) = none →
        ∃ tx ops, (create_marginfi_account rpc st newId).submitted = some tx
          ∧ tx.instructions = set_compute_unit_limit 300000 ::
              set_compute_unit_price PRIORITY_FEE_MICROLAMPORTS :: ops
          ∧ ops.length = 1
          ∧ ∀ i ∈ ops, i.program_id ≠ COMPUTE_BUDGET_PROGRAM_ID) := by
  refine ⟨?_, ?_, ?_⟩
  · intro rpc st tempId amount g b hg hb hpos hdom
    have h0 : (0 : Int) ≤ pyInt (amount * 1000000000) := by
      have hx : (0 : Rat) ≤ amount * 1000000000 := by positivity
      simp only [pyInt, if_pos hx]
      exact Int.ofNat_nonneg _
    simp only [lend_sol, hg, hb, h0, hdom, and_self, if_true, reduceCtorEq,
      reduceIte]
    split
    all_goals
      refine ⟨_, _, rfl, rfl, rfl, ?_⟩
      intro i hi
      simp only [List.mem_cons, List.not_mem_nil, or_false] at hi
      rcases hi with h | h | h | h <;> subst h <;>
        simp [create_account, initialize_account, close_account,
          SYSTEM_PROGRAM_ID, TOKEN_PROGRAM_ID, MARGINFI_PROGRAM_ID,
          COMPUTE_BUDGET_PROGRAM_ID]
  · intro rpc st tempId pool amount a g b ha hg hb hpos hdom
    have h0 : (0 : Int) ≤ pyInt (amount * 1000000000) := by
      have hx : (0 : Rat) ≤ amount * 1000000000 := by positivity
      simp only [pyInt, if_pos hx]
      exact Int.ofNat_nonneg _
    simp only [withdraw_from_pool, ha, hg, hb, h0, hdom, and_self, if_true,
      reduceCtorEq, reduceIte]
    split
    all_goals
      refine ⟨_, _, rfl, rfl, rfl, ?_⟩
      intro i hi
      simp only [List.mem_cons, List.not_mem_nil, or_false] at hi
      rcases hi with h | h | h | h <;> subst h <;>
        simp [create_account, initialize_account, close_account,
          SYSTEM_PROGRAM_ID, TOKEN_PROGRAM_ID, MARGINFI_PROGRAM_ID,
          COMPUTE_BUDGET_PROGRAM_ID]
  · intro rpc st newId g hg hnew
    simp only [create_marginfi_account, hg, reduceCtorEq, reduceIte]
    generalize hst2 :
      (if st.sol_bank_key = none then (find_sol_bank rpc st).2 else st) = st2
    have h2g : st2.marginfi_group_key = some g := by
      rw [← hst2]; split
      · rw [find_sol_bank_group]; exact hg
      · exact hg
    simp only [h2g, hnew]
    split
    all_goals
      refine ⟨_, _, rfl, rfl, rfl, ?_⟩
      intro i hi
      simp only [List.mem_cons, List.not_mem_nil, or_false] at hi
      subst hi
      simp [MARGINFI_PROGRAM_ID, COMPUTE_BUDGET_PROGRAM_ID]

/-- Witness for C5: the three flows at concrete inputs. -/
theorem C5_compute_budget_and_counts_witness :
    (∃ tx ops, (lend_sol trivRpc stResolved 5 (3 / 1000)).submitted = some tx
      ∧ tx.instructions = set_compute_unit_limit 400000 ::
          set_compute_unit_price PRIORITY_FEE_MICROLAMPORTS :: ops
      ∧ ops.length = 4
      ∧ ∀ i ∈ ops, i.program_id ≠ COMPUTE_BUDGET_PROGRAM_ID)
    ∧ (∃ tx ops, (withdraw_from_pool trivRpc stFull 5 "pool" (2 / 1000)).submitted = some tx
        ∧ tx.instructions = set_compute_unit_limit 400000 ::
            set_compute_unit_price PRIORITY_FEE_MICROLAMPORTS :: ops
        ∧ ops.length = 4
        ∧ ∀ i ∈ ops, i.program_id ≠ COMPUTE_BUDGET_PROGRAM_ID)
    ∧ (∃ tx ops, (create_marginfi_account trivRpc stResolved 50).submitted = some tx
        ∧ tx.instructions = set_compute_unit_limit 300000 ::
            set_compute_unit_price PRIORITY_FEE_MICROLAMPORTS :: ops
        ∧ ops.length = 1
        ∧ ∀ i ∈ ops, i.program_id ≠ COMPUTE_BUDGET_PROGRAM_ID) := by
  have e1 : ((3 : Rat) / 1000 * 1000000000) = ((3000000 : Nat) : Rat) := by
    norm_num
  have hdom1 : pyInt ((3 / 1000 : Rat) * 1000000000) < 18446744073709551616 := by
    rw [e1, pyInt_natCast]; norm_num
  have e2 : ((2 : Rat) / 1000 * 1000000000) = ((2000000 : Nat) : Rat) := by
    norm_num
  have hdom2 : pyInt ((2 / 1000 : Rat) * 1000000000) < 18446744073709551616 := by
    rw [e2, pyInt_natCast]; norm_num
  exact ⟨C5_compute_budget_and_counts.1 trivRpc stResolved 5 (3 / 1000)
      (Pubkey.generated 1) (Pubkey.generated 2) rfl rfl (by norm_num) hdom1,
    C5_compute_budget_and_counts.2.1 trivRpc stFull 5 "pool" (2 / 1000)
      (Pubkey.generated 3) (Pubkey.generated 1) (Pubkey.generated 2)
      rfl rfl rfl (by norm_num) hdom2,
    C5_compute_budget_and_counts.2.2 trivRpc stResolved 50
      (Pubkey.generated 1) rfl rfl⟩

/-! ## Claim C6 -/

/-- C6 (amended): group resolution returns the first known candidate
the backend reports as owned by the lending program; when none is
accepted it returns the first program account whose data size is
strictly between 10000 and 15000 bytes; when both strategies fail it
returns none and leaves the cached group untouched. -/
theorem C6_group_resolution (rpc : RpcBackend) (st : MarginFiClient) :
    (∀ g, (KNOWN_MARGINFI_GROUPS.map Pubkey.fromString).find?
          (acceptsCandidate rpc) = some g →
        find_marginfi_group rpc st
          = (some g, { st with marginfi_group_key := some g }))
    ∧ ((KNOWN_MARGINFI_GROUPS.map Pubkey.fromString).find?
          (acceptsCandidate rpc) = none →
        ∀ acct, (rpc.get_program_accounts MARGINFI_PROGRAM_ID).find?
            (fun a => decide (10000 < a.2.length) && decide (a.2.length < 15000))
            = some acct →
          find_marginfi_group rpc st
            = (some acct.1, { st with marginfi_group_key := some acct.1 }))
    ∧ ((KNOWN_MARGINFI_GROUPS.map Pubkey.fromString).find?
          (acceptsCandidate rpc) = none →
        (rpc.get_program_accounts MARGINFI_PROGRAM_ID).find?
            (fun a => decide (10000 < a.2.length) && decide (a.2.length < 15000))
            = none →
        find_marginfi_group rpc st = (none, st)) := by
  refine ⟨?_, ?_, ?_⟩
  · intro g h
    unfold find_marginfi_group
    rw [tryKnownGroups_eq_find, h]
  · intro h acct h2
    unfold find_marginfi_group
    rw [tryKnownGroups_eq_find, h, h2]
  · intro h h2
    unfold find_marginfi_group
    rw [tryKnownGroups_eq_find, h, h2]

/-- Witness for C6: on a backend accepting the first known candidate,
resolution returns it and caches it. -/
theorem C6_group_resolution_witness :
    (KNOWN_MARGINFI_GROUPS.map Pubkey.fromString).find?
        (acceptsCandidate c9rpc)
      = some (Pubkey.fromString "4qp6Fx6tnZkY5Wropq9wUYgtFxXKwE6viZxFHg3rdAG8")
    ∧ find_marginfi_group c9rpc (mkClient (Pubkey.generated 100) false)
      = (some (Pubkey.fromString "4qp6Fx6tnZkY5Wropq9wUYgtFxXKwE6viZxFHg3rdAG8"),
         { mkClient (Pubkey.generated 100) false with
             marginfi_group_key :=
               some (Pubkey.fromString "4qp6Fx6tnZkY5Wropq9wUYgtFxXKwE6viZxFHg3rdAG8") }) :=
  ⟨by decide,
   (C6_group_resolution c9rpc (mkClient (Pubkey.generated 100) false)).1
     (Pubkey.fromString "4qp6Fx6tnZkY5Wropq9wUYgtFxXKwE6viZxFHg3rdAG8")
     (by decide)⟩

/-- Counterexample for C6 as stated: with no candidate accepted, a
program account whose data length is exactly 10000 bytes lies in the
inclusive range from 10,000 to 15,000, yet resolution fails and
returns no address. -/
theorem C6_group_resolution_counterexample :
    ((c6rpc.get_program_accounts MARGINFI_PROGRAM_ID).map
        (fun a => a.2.length)) = [10000]
      ∧ 10000 ≤ 10000 ∧ (10000 : Nat) ≤ 15000
      ∧ find_marginfi_group c6rpc (mkClient (Pubkey.generated 99) false)
          = (none, mkClient (Pubkey.generated 99) false) := by
  refine ⟨by simp [c6rpc, groupSizedData_length], le_refl _, by norm_num, ?_⟩
  unfold find_marginfi_group
  rw [tryKnownGroups_eq_find]
  have h1 : (KNOWN_MARGINFI_GROUPS.map Pubkey.fromString).find?
      (acceptsCandidate c6rpc) = none := by decide
  have h2 : (c6rpc.get_program_accounts MARGINFI_PROGRAM_ID).find?
      (fun a => decide (10000 < a.2.length) && decide (a.2.length < 15000))
      = none := by
    simp [c6rpc, List.find?, groupSizedData_length]
  rw [h1, h2]

/-! ## Claim C7 -/

set_option maxRecDepth 4000 in
/-- C7 (amended): the group and bank caches, once populated, are
preserved by every modeled operation, which reads the cached value
instead of re-resolving; the lending-account cache does not enjoy this:
the deposit path overwrites it unconditionally. -/
theorem C7_group_bank_cache_preserved (rpc : RpcBackend) (st : MarginFiClient)
    (tempId newId : Nat) (pool : String) (amount : Rat) :
    (∀ g, st.marginfi_group_key = some g →
        (lend_sol rpc st tempId amount).state.marginfi_group_key = some g
      ∧ (withdraw_from_pool rpc st tempId pool amount).state.marginfi_group_key
          = some g
      ∧ (create_marginfi_account rpc st newId).state.marginfi_group_key = some g
      ∧ ((get_sol_apy rpc st).2).marginfi_group_key = some g)
    ∧ (∀ b, st.sol_bank_key = some b →
        (lend_sol rpc st tempId amount).state.sol_bank_key = some b
      ∧ (withdraw_from_pool rpc st tempId pool amount).state.sol_bank_key = some b
      ∧ (create_marginfi_account rpc st newId).state.sol_bank_key = some b
      ∧ ((get_sol_apy rpc st).2).sol_bank_key = some b) := by
  constructor
  · intro g hg
    refine ⟨?_, ?_, ?_, ?_⟩
    · simp only [lend_sol, hg, reduceCtorEq, reduceIte]
      repeat' split
      all_goals simp [find_sol_bank_group, hg]
    · simp only [withdraw_from_pool]
      repeat' split
      all_goals
        simp [find_sol_bank_group, find_marginfi_account_group, hg]
    · simp only [create_marginfi_account, hg, reduceCtorEq, reduceIte]
      repeat' split
      all_goals simp [find_sol_bank_group, hg]
    · simp only [get_sol_apy]
      repeat' split
      all_goals simp [find_sol_bank_group, hg]
  · intro b hb
    refine ⟨?_, ?_, ?_, ?_⟩
    · simp only [lend_sol, hb]
      repeat' split
      all_goals
        simp_all [find_marginfi_group_bank, hb, reduceCtorEq]
    · simp only [withdraw_from_pool]
      repeat' split
      all_goals
        simp_all [find_marginfi_account_bank, hb, reduceCtorEq]
    · simp only [create_marginfi_account]
      repeat' split
      all_goals
        simp_all [find_marginfi_group_bank, hb, reduceCtorEq]
    · simp only [get_sol_apy, hb]
      repeat' split
      all_goals simp_all [hb, reduceCtorEq]

/-- Witness for C7 at a concrete backend and populated caches. -/
theorem C7_group_bank_cache_preserved_witness :
    (lend_sol trivRpc stResolved 5 1).state.marginfi_group_key
        = some (Pubkey.generated 1)
      ∧ (lend_sol trivRpc stResolved 5 1).state.sol_bank_key
        = some (Pubkey.generated 2) :=
  ⟨((C7_group_bank_cache_preserved trivRpc stResolved 5 50 "pool" 1).1
      (Pubkey.generated 1) rfl).1,
   ((C7_group_bank_cache_preserved trivRpc stResolved 5 50 "pool" 1).2
      (Pubkey.generated 2) rfl).1⟩

/-- Counterexample for C7 as stated: a populated lending-account cache
is replaced by the deposit path, which unconditionally assigns the
pinned account address. -/
theorem C7_cache_overwrite_counterexample :
    c7st.marginfi_account_key = some (Pubkey.generated 7)
      ∧ (lend_sol trivRpc c7st 0 1).state.marginfi_account_key
          = some EXISTING_MARGINFI_ACCOUNT
      ∧ Pubkey.generated 7 ≠ EXISTING_MARGINFI_ACCOUNT := by
  refine ⟨rfl, ?_, by decide⟩
  simp [lend_sol, find_marginfi_group, tryKnownGroups, KNOWN_MARGINFI_GROUPS,
    trivRpc, c7st]

/-! ## Claim C9 -/

/-- C9 (amended): on the automated lending path, a request whose amount
exceeds the reported available balance is rejected before any
instruction is built, with nothing submitted. -/
theorem C9_auto_flow_balance_validation (rpc : RpcBackend)
    (st : MarginFiClient) (ws : WalletStatus) (tempId : Nat) (amount : Rat)
    (tok : TokenEntry) (rest : List TokenEntry)
    (htok : ws.tokens.filter (fun t => t.symbol == "SOL") = tok :: rest)
    (hgt : amount > tok.balance) :
    auto_lending_flow rpc st ws tempId amount
      = ⟨false, none, (get_sol_apy rpc st).2⟩ := by
  rcases hapy : get_sol_apy rpc st with ⟨apy, st2⟩
  simp only [auto_lending_flow, htok, hapy, hgt, reduceIte]

/-- Witness for C9 at a concrete request exceeding the balance. -/
theorem C9_auto_flow_balance_validation_witness :
    c9ws.tokens.filter (fun t => t.symbol == "SOL") = [⟨"SOL", 1 / 100, 100, 1⟩]
      ∧ (1 : Rat) > 1 / 100
      ∧ auto_lending_flow trivRpc (mkClient (Pubkey.generated 100) false) c9ws 5 1
          = ⟨false, none,
             (get_sol_apy trivRpc (mkClient (Pubkey.generated 100) false)).2⟩ :=
  ⟨rfl, by norm_num,
   C9_auto_flow_balance_validation trivRpc (mkClient (Pubkey.generated 100) false)
     c9ws 5 1 ⟨"SOL", 1 / 100, 100, 1⟩ [] rfl (by norm_num)⟩

/-- Counterexample for C9 as stated: an amount of zero is not rejected
by the automated path; the deposit transaction is constructed and
submitted. -/
theorem C9_zero_amount_counterexample :
    ((0 : Rat) ≤ 0)
      ∧ (auto_lending_flow c9rpc (mkClient (Pubkey.generated 100) false)
          c9ws 5 0).submitted.isSome = true := by
  refine ⟨le_refl 0, ?_⟩
  have hlt : ¬ ((1 : Rat) / 100 < 0) := by norm_num
  have hp0 : pyInt (0 : Rat) = 0 := rfl
  simp [auto_lending_flow, c9ws, get_sol_apy, find_sol_bank, c9rpc, mkClient,
    hlt, lend_sol, find_marginfi_group, tryKnownGroups, KNOWN_MARGINFI_GROUPS,
    hp0, SOL_BANK_CANDIDATE, MARGINFI_PROGRAM_ID]
  norm_num [hp0]
